import Mathlib

/-!
Shallow embedding of the grid-trading engine in
`pionex_futures_grid_bot.py` (class `PionexFuturesGridBot`).

Prices, balances and fees are modelled as rational numbers; Python's
`random.uniform(0.5, 1.5)` draw inside `apply_slippage_and_spread` is made
an explicit parameter `u`, so runs are deterministic functions of the
injected randomness.  Python exceptions matter here: several methods can
raise mid-way, and any mutation of `self` performed before the raise
persists.  Operations are therefore embedded as functions returning the
mutated state together with an `Outcome` that is either a normal return
value or a raised exception.
-/

namespace PionexBot

/-- Side tag as stored in position and trade dictionaries.  The source uses
the raw strings `buy`, `sell`, `long`, `short`; note that `execute_trade`
is only ever invoked with the string `buy`. -/
inductive Side where
  | buy
  | sell
  | long
  | short
deriving DecidableEq, Repr

/-- The Python exceptions that the embedded code can raise. -/
inductive PyError where
  /-- `AttributeError`: `self.trailing_stop_pct` is read in `execute_trade`
  (line 1022) but never assigned anywhere in the repository. -/
  | attributeError
  /-- `NameError`: the close-notification f-string in `close_position`
  (line 1099) references the undefined names `grid_sell_pnl`,
  `grid_sell_pct`, `tp_pnl`, `tp_pct`. -/
  | nameError
  /-- `ZeroDivisionError` from an unguarded division. -/
  | zeroDivisionError
deriving DecidableEq, Repr

/-- Result of a call: a normal Python return value, or a raised exception.
Mutations performed before the raise are recorded separately in the
returned state. -/
inductive Outcome (α : Type) where
  | ok (a : α)
  | raised (e : PyError)
deriving DecidableEq, Repr

/-- The configuration keys that the embedded code paths read
(`self.config`), with the bounds already numeric. -/
structure Config where
  initial_balance : ℚ
  leverage : ℚ
  grid_lower_price : ℚ
  grid_upper_price : ℚ
  grid_count : ℕ
  investment_amount : ℚ
  fee_rate : ℚ
  funding_rate : ℚ
  liquidation_buffer : ℚ
  stop_loss_pct : ℚ
  take_profit_pct : ℚ
deriving DecidableEq, Repr

/-- An open position as built by `execute_trade` (the dict fields that the
rest of the code reads; the `trailing_stop` / `trailing_high` fields are
never constructed because evaluating them raises, see `execute_trade`). -/
structure Position where
  id : ℕ
  side : Side
  entry_price : ℚ
  size : ℚ
  timestamp : ℕ
  leverage : ℚ
  buy_fee : ℚ
deriving DecidableEq, Repr

/-- A closed-trade record as appended by `close_position`. -/
structure Trade where
  timestamp : ℕ
  side : Side
  price : ℚ
  size : ℚ
  fee : ℚ
  pnl : ℚ
  leverage : ℚ
deriving DecidableEq, Repr

/-- The mutable bot state touched by the embedded operations (`self.*`). -/
structure BotState where
  config : Config
  positions : List Position
  trades : List Trade
  total_fees : ℚ
  funding_fees : ℚ
  liquidated_positions : ℕ
  start_balance : ℚ
  current_balance : ℚ
deriving DecidableEq, Repr

/-- `self.slippage_rate = 0.001` set in `__init__`. -/
def slippage_rate : ℚ := 1 / 1000

/-- `self.spread_rate = 0.002` set in `__init__`. -/
def spread_rate : ℚ := 1 / 500

/-- `self.order_failure_rate = 0.05` set in `__init__` (line 74).  It is
read only by the report renderer; `simulate_order_execution` never
consults it. -/
def order_failure_rate : ℚ := 1 / 20

/-- Starting state of a bot run (`__init__` with a given config). -/
def initial_state (cfg : Config) : BotState :=
  { config := cfg
    positions := []
    trades := []
    total_fees := 0
    funding_fees := 0
    liquidated_positions := 0
    start_balance := cfg.initial_balance
    current_balance := cfg.initial_balance }

/-- `apply_slippage_and_spread` (lines 1262-1270).  The factor `u` stands
for the `random.uniform(0.5, 1.5)` draw. -/
def apply_slippage_and_spread (price : ℚ) (is_buy : Bool) (u : ℚ) : ℚ :=
  let slippage := price * slippage_rate * u
  let spread := price * spread_rate
  if is_buy then price + slippage + spread else price - slippage - spread

/-- `simulate_order_execution` (lines 1272-1276): the simplified backtest
implementation applies slippage and spread and returns the price.  There
is no failure branch; the function never returns `None`. -/
def simulate_order_execution (price : ℚ) (is_buy : Bool) (size : ℚ) (u : ℚ) :
    Option ℚ :=
  some (apply_slippage_and_spread price is_buy u)

/-- `calculate_position_size` (lines 943-951):
`(investment_amount * leverage) / price` using the configured leverage. -/
def calculate_position_size (cfg : Config) (price : ℚ) : ℚ :=
  cfg.investment_amount * cfg.leverage / price

/-- The range fraction `max(0.05, min(0.20, volatility * 10))` computed by
`auto_set_grid_range` (line 917). -/
def grid_range_pct (volatility : ℚ) : ℚ :=
  max (5 / 100) (min (20 / 100) (volatility * 10))

/-- `auto_set_grid_range` (lines 893-929): it unconditionally overwrites
`grid_lower_price` and `grid_upper_price` in the config with bounds
derived from the observed market price and volatility, regardless of what
the configuration held. -/
def auto_set_grid_range (cfg : Config) (current_price volatility : ℚ) : Config :=
  let grid_range := current_price * grid_range_pct volatility
  { cfg with
      grid_lower_price := current_price - grid_range / 2
      grid_upper_price := current_price + grid_range / 2 }

/-- The level computation of `calculate_grid_prices` (lines 936-939):
`grid_spacing = (upper - lower) / (grid_count - 1)` followed by
`[lower + i * grid_spacing for i in range(grid_count)]`.  When
`grid_count = 1` the Python division raises `ZeroDivisionError`, modelled
as `none`; there is no guard in the source. -/
def grid_prices_from_bounds (lower upper : ℚ) (grid_count : ℕ) :
    Option (List ℚ) :=
  if grid_count = 1 then none
  else
    let grid_spacing := (upper - lower) / ((grid_count : ℚ) - 1)
    some ((List.range grid_count).map fun i : ℕ => lower + (i : ℚ) * grid_spacing)

/-- `calculate_grid_prices` (lines 931-941): first calls
`auto_set_grid_range` (which rewrites the configured bounds), then lays
out the levels from the rewritten bounds.  Returns the updated config
together with the levels (or `none` for the `grid_count = 1` crash). -/
def calculate_grid_prices (cfg : Config) (current_price volatility : ℚ) :
    Config × Option (List ℚ) :=
  let cfg2 := auto_set_grid_range cfg current_price volatility
  (cfg2, grid_prices_from_bounds cfg2.grid_lower_price cfg2.grid_upper_price
    cfg2.grid_count)

/-- `calculate_liquidation_price` (lines 962-975):
`entry * (1 - 1/leverage)` for long, `entry * (1 + 1/leverage)` for short.
`leverage = 0` raises `ZeroDivisionError` (modelled as `none`); there is
no guard in the source. -/
def calculate_liquidation_price (entry_price position_size : ℚ)
    (is_long : Bool) (leverage : ℚ) : Option ℚ :=
  if leverage = 0 then none
  else if is_long then some (entry_price * (1 - 1 / leverage))
  else some (entry_price * (1 + 1 / leverage))

/-- The PnL computation shared by `check_liquidation_risk` and
`close_position`: the long formula when the stored side tag is `long`,
otherwise the short formula. -/
def position_pnl (pos : Position) (current_price : ℚ) : ℚ :=
  if pos.side = Side.long then
    (current_price - pos.entry_price) * pos.size * pos.leverage
  else
    (pos.entry_price - current_price) * pos.size * pos.leverage

/-- `check_liquidation_risk` (lines 1318-1333): `margin = size`, then
`(margin + pnl) / margin < liquidation_buffer`.  `size = 0` raises
`ZeroDivisionError` (modelled as `none`); there is no guard. -/
def check_liquidation_risk (cfg : Config) (pos : Position)
    (current_price : ℚ) : Option Bool :=
  if pos.size = 0 then none
  else
    let pnl := position_pnl pos current_price
    let margin := pos.size
    some (decide ((margin + pnl) / margin < cfg.liquidation_buffer))

/-- `execute_trade` (lines 999-1069).  After a successful simulated fill
the position dict literal evaluates `self.trailing_stop_pct`, an
attribute that is never assigned anywhere in the repository, so the call
raises `AttributeError` before `self.positions.append` and before
`self.total_fees += fee`: no state is ever mutated by this method. -/
def execute_trade (st : BotState) (price : ℚ) (side : Side)
    (timestamp : ℕ) (u : ℚ) : BotState × Outcome Bool :=
  let position_size := calculate_position_size st.config price
  if position_size ≤ 0 then (st, Outcome.ok false)
  else
    match simulate_order_execution price (side == Side.buy) position_size u with
    | none => (st, Outcome.ok false)
    | some _executed_price => (st, Outcome.raised PyError.attributeError)

/-- `close_position` (lines 1071-1102).  On a successful exit fill it
updates `total_fees`, computes `pnl_percentage = pnl / entry_value * 100`
(raising `ZeroDivisionError` when `entry_price * size = 0`), updates the
balance, appends the `Trade` record, and then builds the notification
f-string, which references the undefined names `grid_sell_pnl` /
`tp_pnl` and therefore raises `NameError`.  The position is never removed
here; all call sites remove it only after a normal return, which never
happens. -/
def close_position (st : BotState) (pos : Position) (price : ℚ)
    (timestamp : ℕ) (u : ℚ) : BotState × Outcome ℚ :=
  match simulate_order_execution price (pos.side == Side.sell) pos.size u with
  | none => (st, Outcome.ok 0)
  | some executed_price =>
    let pnl := if pos.side = Side.long then
        (executed_price - pos.entry_price) * pos.size * pos.leverage
      else
        (pos.entry_price - executed_price) * pos.size * pos.leverage
    let sell_fee := pos.size * executed_price * st.config.fee_rate
    let st1 := { st with total_fees := st.total_fees + sell_fee }
    if pos.entry_price * pos.size = 0 then
      (st1, Outcome.raised PyError.zeroDivisionError)
    else
      let trade : Trade :=
        { timestamp := timestamp
          side := if pos.side = Side.long then Side.sell else Side.buy
          price := executed_price
          size := pos.size
          fee := sell_fee
          pnl := pnl
          leverage := pos.leverage }
      let st2 := { st1 with
          current_balance := st1.current_balance + pnl - sell_fee
          trades := st1.trades ++ [trade] }
      (st2, Outcome.raised PyError.nameError)

/-- `apply_funding_fees` (lines 1335-1344): when positions are open,
charge `sum(size * entry) * funding_rate` once, adding it to both fee
accumulators and deducting it from the balance. -/
def apply_funding_fees (st : BotState) : BotState :=
  if st.positions.length > 0 then
    let total_position_value :=
      (st.positions.map fun p => p.size * p.entry_price).sum
    let funding_fee := total_position_value * st.config.funding_rate
    { st with
        funding_fees := st.funding_fees + funding_fee
        total_fees := st.total_fees + funding_fee
        current_balance := st.current_balance - funding_fee }
  else st

/-- One ledger operation, as invoked by the decision loops: an open
(`execute_trade`), a close of the i-th open position (all call sites pass
a member of `self.positions` and remove it only after a normal return),
or a funding application. -/
inductive Op where
  | doOpen (price : ℚ) (side : Side) (timestamp : ℕ) (u : ℚ)
  | doClose (idx : ℕ) (price : ℚ) (timestamp : ℕ) (u : ℚ)
  | doFunding
deriving DecidableEq, Repr

/-- Apply one operation to the state.  For a close, the exception raised
inside `close_position` propagates before the caller's
`self.positions.remove(position)` line, so the open set is left as the
callee left it. -/
def apply_op (st : BotState) (op : Op) : BotState :=
  match op with
  | Op.doOpen price side timestamp u => (execute_trade st price side timestamp u).1
  | Op.doClose idx price timestamp u =>
    match st.positions[idx]? with
    | none => st
    | some pos => (close_position st pos price timestamp u).1
  | Op.doFunding => apply_funding_fees st

/-- The state after a finite sequence of operations from a fresh run. -/
def run_ops (cfg : Config) (ops : List Op) : BotState :=
  ops.foldl apply_op (initial_state cfg)

/-- The per-bar grid logic of `run_backtest` (lines 1429-1442): walk the
grid levels in order; at a level `g`, if `price <= g` and no open position
has `entry_price == g`, attempt an open (when the balance exceeds the
investment amount); otherwise if `price >= g`, close the first open
position with `entry_price == g` and side `long` and remove it.  An
exception raised by `execute_trade` or `close_position` propagates out of
`run_backtest` (there is no handler), aborting the walk; the second
component records it. -/
def backtest_grid_step (st : BotState) (grid : List ℚ) (price : ℚ)
    (timestamp : ℕ) (u : ℚ) : BotState × Option PyError :=
  match grid with
  | [] => (st, none)
  | g :: rest =>
    if price ≤ g ∧
        (st.positions.filter fun p => p.entry_price == g).length = 0 then
      if st.current_balance > st.config.investment_amount then
        let r := execute_trade st g Side.buy timestamp u
        match r.2 with
        | Outcome.raised e => (r.1, some e)
        | Outcome.ok _ => backtest_grid_step r.1 rest price timestamp u
      else backtest_grid_step st rest price timestamp u
    else if price ≥ g then
      match st.positions.find? (fun p =>
          p.entry_price == g && p.side == Side.long) with
      | some pos =>
        let r := close_position st pos g timestamp u
        match r.2 with
        | Outcome.raised e => (r.1, some e)
        | Outcome.ok _ =>
          backtest_grid_step { r.1 with positions := r.1.positions.erase pos }
            rest price timestamp u
      | none => backtest_grid_step st rest price timestamp u
    else backtest_grid_step st rest price timestamp u

/-- The `crossed_up` predicate of the live loop (line 1790):
`last_price < grid_price <= price`. -/
def crossed_up (last_price grid_price price : ℚ) : Bool :=
  decide (last_price < grid_price) && decide (grid_price ≤ price)

/-- The `crossed_down` predicate of the live loop (line 1791):
`last_price > grid_price >= price`. -/
def crossed_down (last_price grid_price price : ℚ) : Bool :=
  decide (last_price > grid_price) && decide (grid_price ≥ price)

/-- One grid-cross pass of `live_trading_loop` (lines 1786-1808), for a
cycle that has a previous price.  Per level: on `crossed_up` with no open
position tagged `long` anywhere, attempt an open (side `buy`) and stop;
on `crossed_down` with no open position tagged `short`, close the first
position tagged `long` (if any) and stop, else move to the next level.
Any exception is caught by the cycle-level `except` handler after
aborting the rest of the pass (so `trade_executed` stays false and the
state keeps whatever the callee mutated); the third component records
it. -/
def live_cycle_levels (st : BotState) (grid : List ℚ)
    (last_price price : ℚ) (timestamp : ℕ) (u : ℚ) :
    BotState × Bool × Option PyError :=
  match grid with
  | [] => (st, false, none)
  | g :: rest =>
    let has_long := st.positions.any fun p => p.side == Side.long
    let has_short := st.positions.any fun p => p.side == Side.short
    if crossed_up last_price g price && !has_long then
      let r := execute_trade st g Side.buy timestamp u
      match r.2 with
      | Outcome.raised e => (r.1, false, some e)
      | Outcome.ok _ => (r.1, true, none)
    else if crossed_down last_price g price && !has_short then
      match st.positions.find? (fun p => p.side == Side.long) with
      | some pos =>
        let r := close_position st pos g timestamp u
        match r.2 with
        | Outcome.raised e => (r.1, false, some e)
        | Outcome.ok _ =>
          ({ r.1 with positions := r.1.positions.erase pos }, true, none)
      | none => live_cycle_levels st rest last_price price timestamp u
    else live_cycle_levels st rest last_price price timestamp u

/-- A concrete configuration matching the shipped defaults
(`load_config`): balance 10000, leverage 3, bounds 90/110 (numeric for
the grid claims), 5 levels, investment 1000, fee 0.0004, funding 0.0001,
liquidation buffer 0.1, stop loss 0.05, take profit 0.10. -/
def sample_config : Config :=
  { initial_balance := 10000
    leverage := 3
    grid_lower_price := 90
    grid_upper_price := 110
    grid_count := 5
    investment_amount := 1000
    fee_rate := 1 / 2500
    funding_rate := 1 / 10000
    liquidation_buffer := 1 / 10
    stop_loss_pct := 1 / 20
    take_profit_pct := 1 / 10 }

/-- A long position: entry 100, size 1, leverage 1, as passed to
`close_position` by a caller. -/
def c1_pos : Position :=
  { id := 1, side := Side.long, entry_price := 100, size := 1,
    timestamp := 0, leverage := 1, buy_fee := 0 }

/-- A bot state holding exactly the position `c1_pos` in its open set. -/
def c1_state : BotState :=
  { initial_state sample_config with positions := [c1_pos] }

/-- Closing `c1_pos` at price 100 (randomness draw `u = 1`). -/
def c1_result : BotState × Outcome ℚ := close_position c1_state c1_pos 100 0 1

/-- Opening at price 100 on a fresh state (randomness draw `u = 1`). -/
def c4_result : BotState × Outcome Bool :=
  execute_trade (initial_state sample_config) 100 Side.buy 0 1

/-- One backtest bar at price 100 over the levels 90..110 on a fresh
state. -/
def c5_result : BotState × Option PyError :=
  backtest_grid_step (initial_state sample_config) [90, 95, 100, 105, 110]
    100 0 1

/-- One live cycle with previous price 99, current price 101, a single
grid level 100 and an empty open set. -/
def c7_result : BotState × Bool × Option PyError :=
  live_cycle_levels (initial_state sample_config) [100] 99 101 0 1

/-- The long position of the spec example: margin (= size) 100 and, at
current price 9.05, PnL −95. -/
def c8_pos : Position :=
  { id := 1, side := Side.long, entry_price := 10, size := 100,
    timestamp := 0, leverage := 1, buy_fee := 0 }

/-- A position with `size = 0`, the unguarded-division input of
`check_liquidation_risk`. -/
def c9_pos : Position :=
  { id := 1, side := Side.long, entry_price := 100, size := 0,
    timestamp := 0, leverage := 3, buy_fee := 0 }

/-- An open position exactly as a live-loop open would have recorded it:
side tag `buy` (the string passed to `execute_trade`), entry at the
slipped fill price of level 100. -/
def c10_pos : Position :=
  { id := 1, side := Side.buy, entry_price := 1003 / 10, size := 30,
    timestamp := 0, leverage := 3, buy_fee := 3009 / 2500 }

/-- A live-loop state holding the open position `c10_pos`. -/
def c10_state : BotState :=
  { initial_state sample_config with positions := [c10_pos] }

/-- A live cycle on `c10_state`: previous price 104, current price 106,
grid level 105 (an upward edge crossing). -/
def c10_result : BotState × Bool × Option PyError :=
  live_cycle_levels c10_state [105] 104 106 0 1

/-! ## Helper lemmas -/

/-- `execute_trade` never mutates the bot state: it either rejects on
non-positive size, aborts on a `None` fill, or raises `AttributeError`
before its first assignment to `self`. -/
lemma execute_trade_state_eq (st : BotState) (price : ℚ) (side : Side)
    (timestamp : ℕ) (u : ℚ) :
    (execute_trade st price side timestamp u).1 = st := by
  by_cases h : calculate_position_size st.config price ≤ 0
  · simp [execute_trade, h]
  · simp [execute_trade, simulate_order_execution, h]

/-- With an empty open set no ledger operation changes the state: opens
raise before mutating, closes have no position to act on, and funding is
a no-op. -/
lemma apply_op_state_eq_of_nil (st : BotState) (h : st.positions = [])
    (op : Op) : apply_op st op = st := by
  cases op with
  | doOpen price side timestamp u =>
    exact execute_trade_state_eq st price side timestamp u
  | doClose idx price timestamp u => simp [apply_op, h]
  | doFunding => simp [apply_op, apply_funding_fees, h]

/-- Every operation sequence leaves a fresh run in its initial state:
`execute_trade` raises `AttributeError` before appending a position, so
the open set stays empty and closes and funding never find anything to
act on. -/
lemma run_ops_initial (cfg : Config) (ops : List Op) :
    run_ops cfg ops = initial_state cfg := by
  unfold run_ops
  induction ops with
  | nil => rfl
  | cons op ops ih =>
    rw [List.foldl_cons, apply_op_state_eq_of_nil (initial_state cfg) rfl op]
    exact ih

/-- `List.range 5` evaluated, for concrete grid computations. -/
lemma range_five : List.range 5 = [0, 1, 2, 3, 4] := rfl

/-! ## Claim theorems -/

/-- C1: a close is never atomic.  On the concrete close of the open long
`c1_pos` at price 100, `close_position` appends the `Trade` record and
changes the balance, then raises `NameError` (the notification f-string
references the undefined `grid_sell_pnl`), so the caller's removal never
runs and the position stays in the open set: a partial close is
persisted, with the position simultaneously open and recorded as a
trade. -/
theorem close_position_partial_close :
    c1_result.2 = Outcome.raised PyError.nameError ∧
    c1_result.1.positions = [c1_pos] ∧
    c1_result.1.trades.length = 1 ∧
    c1_result.1.current_balance ≠ c1_state.current_balance := by
  refine ⟨?_, ?_, ?_, ?_⟩ <;>
    norm_num +decide [c1_result, c1_state, c1_pos, close_position,
      simulate_order_execution, apply_slippage_and_spread, slippage_rate,
      spread_rate, initial_state, sample_config]

/-- C2: after any finite sequence of opens, closes and funding
applications from a fresh run, the current balance equals the start
balance plus the summed recorded PnL minus the accumulated fees — here
exactly, hence within any tolerance.  (The equality is exact because buy
fees never reach the accumulator: `execute_trade` raises before charging
them, so the open set stays empty and every operation is ultimately a
no-op.) -/
theorem balance_equals_start_plus_pnl_minus_fees (cfg : Config)
    (ops : List Op) :
    (run_ops cfg ops).current_balance =
      (run_ops cfg ops).start_balance +
        ((run_ops cfg ops).trades.map Trade.pnl).sum -
        (run_ops cfg ops).total_fees := by
  simp [run_ops_initial, initial_state]

/-- C3 counterexample: although `order_failure_rate` is configured as 5%,
`simulate_order_execution` has no failure branch and never returns
`None`, for any requested price, direction, size or random draw. -/
theorem simulate_order_execution_never_none :
    order_failure_rate = 1 / 20 ∧
    ¬ ∃ (price size u : ℚ) (is_buy : Bool),
        simulate_order_execution price is_buy size u = none := by
  refine ⟨rfl, ?_⟩
  rintro ⟨price, size, u, is_buy, h⟩
  simp [simulate_order_execution] at h

/-- C3 amended: `simulate_order_execution` always fills, returning the
slippage- and spread-adjusted price; the configured failure probability
is never consulted, so the callers' `None`-handling paths are dead
code. -/
theorem simulate_order_execution_always_fills (price : ℚ) (is_buy : Bool)
    (size u : ℚ) :
    simulate_order_execution price is_buy size u =
      some (apply_slippage_and_spread price is_buy u) := rfl

/-- C4: on a fresh state at price 100 the computed size is 30 > 0 and the
simulated fill succeeds, yet `execute_trade` raises `AttributeError`
(reading the never-assigned `self.trailing_stop_pct` while building the
position dict) and returns with the state unchanged: no position is
created, no buy fee is charged. -/
theorem execute_trade_raises_attribute_error :
    0 < calculate_position_size sample_config 100 ∧
    c4_result.2 = Outcome.raised PyError.attributeError ∧
    c4_result.1 = initial_state sample_config := by
  refine ⟨?_, ?_, ?_⟩ <;>
    norm_num +decide [c4_result, execute_trade, calculate_position_size,
      simulate_order_execution, apply_slippage_and_spread, slippage_rate,
      spread_rate, initial_state, sample_config]

/-- C5: on the first backtest bar whose price reaches a grid level (price
100 against levels 90..110, balance above the investment amount), the
grid walk attempts the open and aborts with `AttributeError`; the open
set stays empty, so no long is ever opened at any level, contrary to the
claimed open/close discipline. -/
theorem backtest_open_raises_no_position :
    c5_result.2 = some PyError.attributeError ∧
    c5_result.1.positions = [] ∧
    c5_result.1 = initial_state sample_config := by
  refine ⟨?_, ?_, ?_⟩ <;>
    norm_num +decide [c5_result, backtest_grid_step, execute_trade,
      calculate_position_size, simulate_order_execution,
      apply_slippage_and_spread, slippage_rate, spread_rate, initial_state,
      sample_config]

/-- C6 counterexample: with the configured bounds 90/110 and count 5 but
a market price of 200 (volatility 0.02), `calculate_grid_prices` returns
[180, 190, 200, 210, 220], not [90, 95, 100, 105, 110]:
`auto_set_grid_range` overwrites the configured bounds
unconditionally. -/
theorem grid_prices_ignore_configured_bounds :
    sample_config.grid_lower_price = 90 ∧
    sample_config.grid_upper_price = 110 ∧
    sample_config.grid_count = 5 ∧
    (calculate_grid_prices sample_config 200 (1 / 50)).2 =
      some [180, 190, 200, 210, 220] ∧
    ([180, 190, 200, 210, 220] : List ℚ) ≠ [90, 95, 100, 105, 110] := by
  refine ⟨rfl, rfl, rfl, ?_, ?_⟩ <;>
    norm_num [calculate_grid_prices, auto_set_grid_range, grid_range_pct,
      grid_prices_from_bounds, sample_config, range_five, min_def, max_def]

/-- C6 amended: for any positive market price and `grid_count ≥ 2`,
`calculate_grid_prices` first rewrites the bounds from the market data
(`auto_set_grid_range`) and then returns exactly `grid_count` equally
spaced, strictly increasing prices from the rewritten lower bound to the
rewritten upper bound inclusive; the configured bounds are ignored.  The
spec example [90, 95, 100, 105, 110] is obtained only when price and
volatility happen to reproduce the bounds 90/110 (e.g. price 100,
volatility 0.02). -/
theorem calculate_grid_prices_equally_spaced (cfg : Config) (p vol : ℚ)
    (hp : 0 < p) (hc : 2 ≤ cfg.grid_count) :
    ∃ l : List ℚ,
      calculate_grid_prices cfg p vol = (auto_set_grid_range cfg p vol, some l) ∧
      (auto_set_grid_range cfg p vol).grid_lower_price <
        (auto_set_grid_range cfg p vol).grid_upper_price ∧
      l.length = cfg.grid_count ∧
      List.Chain' (· < ·) l ∧
      l.head? = some (auto_set_grid_range cfg p vol).grid_lower_price ∧
      l.getLast? = some (auto_set_grid_range cfg p vol).grid_upper_price ∧
      ∀ i : ℕ, i < cfg.grid_count →
        l[i]? = some ((auto_set_grid_range cfg p vol).grid_lower_price +
          (i : ℚ) * (((auto_set_grid_range cfg p vol).grid_upper_price -
            (auto_set_grid_range cfg p vol).grid_lower_price) /
              ((cfg.grid_count : ℚ) - 1))) := by
  obtain ⟨m, hm⟩ : ∃ m, cfg.grid_count = m + 2 := ⟨cfg.grid_count - 2, by omega⟩
  have hlo : (auto_set_grid_range cfg p vol).grid_lower_price =
      p - p * grid_range_pct vol / 2 := rfl
  have hhi : (auto_set_grid_range cfg p vol).grid_upper_price =
      p + p * grid_range_pct vol / 2 := rfl
  have hcpos : 0 < grid_range_pct vol :=
    lt_of_lt_of_le (by norm_num) (le_max_left _ _)
  have hpc : 0 < p * grid_range_pct vol := mul_pos hp hcpos
  have hlohi : (auto_set_grid_range cfg p vol).grid_lower_price <
      (auto_set_grid_range cfg p vol).grid_upper_price := by
    rw [hlo, hhi]; linarith
  have hn : ((cfg.grid_count : ℚ) - 1) = (m : ℚ) + 1 := by
    rw [hm]; push_cast; ring
  have hnpos : (0 : ℚ) < (cfg.grid_count : ℚ) - 1 := by rw [hn]; positivity
  have hd : 0 < ((auto_set_grid_range cfg p vol).grid_upper_price -
      (auto_set_grid_range cfg p vol).grid_lower_price) /
        ((cfg.grid_count : ℚ) - 1) := by
    apply div_pos _ hnpos
    linarith
  refine ⟨(List.range cfg.grid_count).map
      (fun i : ℕ => (auto_set_grid_range cfg p vol).grid_lower_price +
        (i : ℚ) * (((auto_set_grid_range cfg p vol).grid_upper_price -
          (auto_set_grid_range cfg p vol).grid_lower_price) /
            ((cfg.grid_count : ℚ) - 1))),
    ?_, hlohi, ?_, ?_, ?_, ?_, ?_⟩
  · have h1 : (auto_set_grid_range cfg p vol).grid_count ≠ 1 := by
      have h2 : (auto_set_grid_range cfg p vol).grid_count = cfg.grid_count := rfl
      omega
    simp only [calculate_grid_prices, grid_prices_from_bounds]
    rw [if_neg h1]
    rfl
  · simp
  · rw [List.chain'_map]
    have hr : List.range cfg.grid_count = List.range ((m + 1) + 1) := by
      rw [hm]
    rw [hr, List.chain'_range_succ]
    intro k hk
    have hkd : ((k : ℚ)) * (((auto_set_grid_range cfg p vol).grid_upper_price -
        (auto_set_grid_range cfg p vol).grid_lower_price) /
          ((cfg.grid_count : ℚ) - 1)) <
        ((k : ℚ) + 1) * (((auto_set_grid_range cfg p vol).grid_upper_price -
          (auto_set_grid_range cfg p vol).grid_lower_price) /
            ((cfg.grid_count : ℚ) - 1)) := by
      have := mul_lt_mul_of_pos_right (show (k : ℚ) < (k : ℚ) + 1 by linarith) hd
      linarith
    push_cast
    linarith
  · have hr : List.range cfg.grid_count =
        0 :: (List.range (m + 1)).map Nat.succ := by
      rw [hm]
      exact List.range_succ_eq_map (m + 1)
    rw [hr]
    simp
  · have hr : List.range cfg.grid_count = List.range (m + 1) ++ [m + 1] := by
      rw [hm]
      exact List.range_succ (m + 1)
    rw [hr, List.map_append, List.map_cons, List.map_nil, List.getLast?_concat]
    have hne : ((m : ℚ) + 1) ≠ 0 := by positivity
    rw [hn]
    push_cast
    field_simp
  · intro i hi
    rw [List.getElem?_map, List.getElem?_range hi]
    rfl

/-- C6 witness: instantiating at the default configuration with market
price 100 and volatility 0.02, where the rewritten bounds coincide with
the configured 90/110 and the levels are [90, 95, 100, 105, 110]. -/
theorem calculate_grid_prices_equally_spaced_witness :
    0 < (100 : ℚ) ∧ 2 ≤ sample_config.grid_count ∧
    (∃ l : List ℚ,
      calculate_grid_prices sample_config 100 (1 / 50) =
        (auto_set_grid_range sample_config 100 (1 / 50), some l) ∧
      (auto_set_grid_range sample_config 100 (1 / 50)).grid_lower_price <
        (auto_set_grid_range sample_config 100 (1 / 50)).grid_upper_price ∧
      l.length = sample_config.grid_count ∧
      List.Chain' (· < ·) l ∧
      l.head? = some (auto_set_grid_range sample_config 100 (1 / 50)).grid_lower_price ∧
      l.getLast? = some (auto_set_grid_range sample_config 100 (1 / 50)).grid_upper_price ∧
      ∀ i : ℕ, i < sample_config.grid_count →
        l[i]? = some ((auto_set_grid_range sample_config 100 (1 / 50)).grid_lower_price +
          (i : ℚ) * (((auto_set_grid_range sample_config 100 (1 / 50)).grid_upper_price -
            (auto_set_grid_range sample_config 100 (1 / 50)).grid_lower_price) /
              ((sample_config.grid_count : ℚ) - 1)))) ∧
    (calculate_grid_prices sample_config 100 (1 / 50)).2 =
      some [90, 95, 100, 105, 110] := by
  refine ⟨by norm_num, by norm_num [sample_config],
    calculate_grid_prices_equally_spaced sample_config 100 (1 / 50)
      (by norm_num) (by norm_num [sample_config]), ?_⟩
  norm_num [calculate_grid_prices, auto_set_grid_range, grid_range_pct,
    grid_prices_from_bounds, sample_config, range_five, min_def, max_def]

/-- C7: the crossing predicate matches the claim (prev 99 < level 100 ≤
current 101), the open set contains no long, yet the cycle opens nothing:
the attempted open raises `AttributeError`, the error is swallowed by the
cycle-level handler, `trade_executed` stays false and the state is
unchanged — contrary to the claim that such a crossing opens a long. -/
theorem live_crossed_up_open_raises :
    crossed_up 99 100 101 = true ∧
    ((initial_state sample_config).positions.any
      fun p => p.side == Side.long) = false ∧
    c7_result.2.2 = some PyError.attributeError ∧
    c7_result.1 = initial_state sample_config ∧
    c7_result.2.1 = false := by
  refine ⟨?_, ?_, ?_, ?_, ?_⟩ <;>
    norm_num +decide [c7_result, live_cycle_levels, crossed_up, crossed_down,
      execute_trade, calculate_position_size, simulate_order_execution,
      apply_slippage_and_spread, slippage_rate, spread_rate, initial_state,
      sample_config]

/-- C8: with nonzero size, `check_liquidation_risk` returns exactly the
claimed decision: PnL by the side formula, margin equal to the size, and
liquidation iff `(margin + pnl) / margin < liquidation_buffer`. -/
theorem check_liquidation_risk_formula (cfg : Config) (pos : Position)
    (price : ℚ) (h : pos.size ≠ 0) :
    check_liquidation_risk cfg pos price =
      some (decide ((pos.size +
        (if pos.side = Side.long then
          (price - pos.entry_price) * pos.size * pos.leverage
        else
          (pos.entry_price - price) * pos.size * pos.leverage)) / pos.size <
        cfg.liquidation_buffer)) := by
  simp only [check_liquidation_risk, position_pnl, if_neg h]

/-- C8 witness: the spec example — margin (= size) 100, PnL −95 at price
9.05, buffer 0.1 — yields margin ratio 0.05 < 0.1 and liquidation. -/
theorem check_liquidation_risk_formula_witness :
    c8_pos.size ≠ 0 ∧
    position_pnl c8_pos (181 / 20) = -95 ∧
    check_liquidation_risk sample_config c8_pos (181 / 20) = some true := by
  refine ⟨by norm_num [c8_pos], by norm_num [c8_pos, position_pnl], ?_⟩
  rw [check_liquidation_risk_formula sample_config c8_pos (181 / 20)
    (by norm_num [c8_pos])]
  norm_num [c8_pos, sample_config]

/-- C9: none of the three division sites is guarded; each raises
`ZeroDivisionError` instead of returning a value: `calculate_grid_prices`
at `grid_count = 1`, `calculate_liquidation_price` at `leverage = 0`, and
`check_liquidation_risk` at `size = 0` (its margin). -/
theorem division_sites_unguarded :
    (calculate_grid_prices { sample_config with grid_count := 1 }
      100 (1 / 50)).2 = none ∧
    calculate_liquidation_price 100 30 true 0 = none ∧
    check_liquidation_risk sample_config c9_pos 90 = none := by
  refine ⟨?_, ?_, ?_⟩ <;>
    norm_num [calculate_grid_prices, auto_set_grid_range,
      grid_prices_from_bounds, calculate_liquidation_price,
      check_liquidation_risk, c9_pos, sample_config]

/-- C10: the at-most-one-long guard never binds.  With one open position
in the set — tagged `buy`, exactly as the live loop records its opens —
`has_long` evaluates to false, so an upward crossing proceeds to attempt
a second open; that attempt raises `AttributeError` and the cycle ends
with the state unchanged.  No long is ever opened at all, and the guard
could not see one if it were. -/
theorem live_guard_blind_to_buy_positions :
    c10_state.positions.length = 1 ∧
    (c10_state.positions.any fun p => p.side == Side.long) = false ∧
    crossed_up 104 105 106 = true ∧
    c10_result.1 = c10_state ∧
    c10_result.2.1 = false ∧
    c10_result.2.2 = some PyError.attributeError := by
  refine ⟨?_, ?_, ?_, ?_, ?_, ?_⟩ <;>
    norm_num +decide [c10_result, c10_state, c10_pos, live_cycle_levels, crossed_up,
      crossed_down, execute_trade, calculate_position_size,
      simulate_order_execution, apply_slippage_and_spread, slippage_rate,
      spread_rate, initial_state, sample_config]

end PionexBot
